import Mathlib

/-!
Verification of the Frame/Time/Interval unit-conversion and output-state
model of vs-preview (`src/vspreview/core/types.py`), shallowly embedded
in Lean 4.  Python ints are `Int`, Python floats and `timedelta` values
are `Rat`, fallible constructors return `Except PyError _`, and the
in-place mutating operators are modelled by state passing (the operator
returns the new wrapped value).
-/

/-- Kinds of Python exceptions raised by the embedded code.
`valueError` and the message-less `typeError ""` model the bare
`raise ValueError` / `raise TypeError` in the constructors;
`typeError msg` / `keyError msg` model `Scene.setstate`'s
descriptive corruption errors; `zeroDivisionError` models Python's
division by zero. -/
inductive PyError where
  | valueError
  | typeError (msg : String)
  | keyError (msg : String)
  | zeroDivisionError
  deriving Repr, DecidableEq

/-- `Frame` wraps an integer (`self.value`).  The non-negativity
invariant is enforced by the constructor `Frame.fromInt`, not by the
structure itself, because `Frame.isubFI` (in-place subtraction) can
break it, exactly as in the source. -/
structure Frame where
  value : Int
  deriving Repr, DecidableEq

/-- `FrameInterval` wraps a signed integer; its constructor performs no
range validation. -/
structure FrameInterval where
  value : Int
  deriving Repr, DecidableEq

/-- A Python value, as far as the constructors and the persistence
loaders discriminate on types via `isinstance`.  `time`/`timeInterval`
carry the wrapped `timedelta` as rational seconds; `sceningLists` is an
opaque identifier for a `SceningLists` collection. -/
inductive PyVal where
  | int (n : Int)
  | float (q : Rat)
  | str (s : String)
  | pyNone
  | frame (f : Frame)
  | frameInterval (d : FrameInterval)
  | time (seconds : Rat)
  | sceningLists (id : Nat)
  deriving Repr, DecidableEq

/-- `Frame.__init__` restricted to an `int` argument:
`if init_value < 0: raise ValueError; self.value = init_value`. -/
def Frame.fromInt (n : Int) : Except PyError Frame :=
  if n < 0 then .error .valueError else .ok ⟨n⟩

/-- `Frame.__init__`.  Branches in source order over
`isinstance(init_value, int) / Frame / Time`; any other type raises a
bare `TypeError`.  The `Time` branch goes through the current output's
`to_frame` (the conversion context), passed here as `toFrameCtx`, and
re-wraps its `.value`. -/
def Frame.init (toFrameCtx : Rat → Except PyError Frame) (v : PyVal) :
    Except PyError Frame :=
  match v with
  | .int n => Frame.fromInt n
  | .frame f => .ok ⟨f.value⟩
  | .time s => (toFrameCtx s).map (fun f => ⟨f.value⟩)
  | _ => .error (.typeError "")

/-- `Frame.__add__`: `return Frame(self.value + other.value)` —
re-validates through the constructor. -/
def Frame.add (a : Frame) (d : FrameInterval) : Except PyError Frame :=
  Frame.fromInt (a.value + d.value)

/-- `Frame.__sub__` on a `Frame` operand:
`return FrameInterval(self.value - other.value)` — never fails, the
`FrameInterval` constructor accepts any integer. -/
def Frame.subF (a b : Frame) : FrameInterval :=
  ⟨a.value - b.value⟩

/-- `Frame.__sub__` on a `FrameInterval` operand:
`return Frame(self.value - other.value)` — re-validates through the
constructor, so a result below zero raises `ValueError`. -/
def Frame.subFI (a : Frame) (d : FrameInterval) : Except PyError Frame :=
  Frame.fromInt (a.value - d.value)

/-- `Frame.__isub__`: `self.value -= other.value; return self` — mutates
the wrapped value with no validation whatsoever. -/
def Frame.isubFI (a : Frame) (d : FrameInterval) : Frame :=
  ⟨a.value - d.value⟩

/-- `YAMLObjectWrapper.__eq__` specialised to `Frame`:
`self.value == other.value`. -/
def Frame.eqb (a b : Frame) : Bool :=
  a.value == b.value

/-- `YAMLObjectWrapper.__gt__` specialised to `Frame`:
`self.value > other.value`. -/
def Frame.gtb (a b : Frame) : Bool :=
  decide (a.value > b.value)

/-- `YAMLObjectWrapper.__ne__`: `not self.__eq__(other)`. -/
def Frame.neb (a b : Frame) : Bool :=
  !(Frame.eqb a b)

/-- `YAMLObjectWrapper.__le__`: `not self.__gt__(other)`. -/
def Frame.leb (a b : Frame) : Bool :=
  !(Frame.gtb a b)

/-- `YAMLObjectWrapper.__ge__`: `self.__eq__(other) or self.__gt__(other)`. -/
def Frame.geb (a b : Frame) : Bool :=
  Frame.eqb a b || Frame.gtb a b

/-- `YAMLObjectWrapper.__lt__`: `not self.__ge__(other)`. -/
def Frame.ltb (a b : Frame) : Bool :=
  !(Frame.geb a b)

/-- The wrapped `self.value` of a `YAMLObjectWrapper` subclass: an
integer for `Frame`/`FrameInterval`, a `timedelta` (rational seconds)
for `Time`/`TimeInterval`. -/
inductive WrapperVal where
  | int (n : Int)
  | dur (seconds : Rat)
  deriving Repr, DecidableEq

/-- A `YAMLObjectWrapper` instance, abstracting over the concrete unit
type, for the cross-type comparison semantics of the base class. -/
inductive Wrapper where
  | frame (f : Frame)
  | frameInterval (d : FrameInterval)
  | time (seconds : Rat)
  | timeInterval (seconds : Rat)
  deriving Repr, DecidableEq

/-- The `self.value` read used by `YAMLObjectWrapper.__eq__`. -/
def Wrapper.value : Wrapper → WrapperVal
  | .frame f => .int f.value
  | .frameInterval d => .int d.value
  | .time s => .dur s
  | .timeInterval s => .dur s

/-- Python `==` on the wrapped values themselves: equal ints or equal
timedeltas compare `True`; an int never equals a timedelta. -/
def WrapperVal.eqb : WrapperVal → WrapperVal → Bool
  | .int m, .int n => m == n
  | .dur p, .dur q => p == q
  | _, _ => false

/-- `YAMLObjectWrapper.__eq__`: `self.value == other.value`, with no
check on the unit type of `other`. -/
def Wrapper.eqb (a b : Wrapper) : Bool :=
  WrapperVal.eqb a.value b.value

/-- `Scene`: a labelled inclusive frame range.  The field `end` keeps
its source name via guillemets since `end` is a Lean keyword. -/
structure Scene where
  start : Frame
  «end» : Frame
  label : String
  deriving Repr, DecidableEq

/-- `Scene.__init__`.  Both endpoints given: use them; one given: the
other defaults to it; neither: `raise ValueError`.  Then
`if self.start > self.end: swap`. -/
def Scene.init (start «end» : Option Frame) (label : String) :
    Except PyError Scene :=
  match start, «end» with
  | some s, some e =>
      .ok (if Frame.gtb s e then ⟨e, s, label⟩ else ⟨s, e, label⟩)
  | some s, none => .ok ⟨s, s, label⟩
  | none, some e => .ok ⟨e, e, label⟩
  | none, none => .error .valueError

/-- A persisted-state mapping, as `Scene.__setstate__` and
`Output.__setstate__` receive it. -/
abbrev PyDict := List (String × PyVal)

/-- Message of the `TypeError` raised when the persisted `start` field
is not a `Frame`. -/
def startNotFrameMsg : String :=
  "Start frame of Scene is not a Frame. It\x27s most probably corrupted."

/-- Message of the `TypeError` raised when the persisted `end` field is
not a `Frame`. -/
def endNotFrameMsg : String :=
  "End frame of Scene is not a Frame. It\x27s most probably corrupted."

/-- Message of the `TypeError` raised when the persisted `label` field
is not a string. -/
def labelNotStrMsg : String :=
  "Label of Scene is not a string. It\x27s most probably corrupted."

/-- Message of the `KeyError` raised when a `Scene` field is absent:
`'... Check those: {}.'.format(', '.join(self.__slots__))` with slots
`('start', 'end', 'label')`. -/
def sceneFieldsMsg : String :=
  "Scene lacks one or more of its fields. It\x27s most probably corrupted. Check those: start, end, label."

/-- `Scene.__setstate__`.  The three `isinstance` checks run in source
order inside a `try` whose `except KeyError` re-raises the descriptive
corruption error; a `TypeError` from a present-but-mistyped field
escapes the `try` untouched.  On success the record is rebuilt through
`Scene.__init__`. -/
def Scene.setstate (state : PyDict) : Except PyError Scene :=
  match state.lookup "start" with
  | none => .error (.keyError sceneFieldsMsg)
  | some sv =>
    match sv with
    | .frame s =>
      match state.lookup "end" with
      | none => .error (.keyError sceneFieldsMsg)
      | some ev =>
        match ev with
        | .frame e =>
          match state.lookup "label" with
          | none => .error (.keyError sceneFieldsMsg)
          | some lv =>
            match lv with
            | .str l => Scene.init (some s) (some e) l
            | _ => .error (.typeError labelNotStrMsg)
        | _ => .error (.typeError endNotFrameMsg)
    | _ => .error (.typeError startNotFrameMsg)

/-- `msg` textually names the field `field`: it contains `field` as a
substring. -/
def mentionsField (msg field : String) : Prop :=
  ∃ p q, msg = p ++ field ++ q

/-- Python `round` (banker's rounding, round half to even), on the
rational model of floats. -/
def pyRound (q : Rat) : Int :=
  let f := ⌊q⌋
  let r := q - f
  if r < 1/2 then f
  else if 1/2 < r then f + 1
  else if f % 2 = 0 then f else f + 1

namespace Output

/-- `Output._calculate_frame`: `round(seconds * self.fps)` — a plain
multiplication, no division, no fps guard. -/
def calculateFrame (fps seconds : Rat) : Int :=
  pyRound (seconds * fps)

/-- `Output._calculate_seconds`: `frame_num / (self.fps or 1)` —
Python `or` substitutes `1` when `fps == 0.0`. -/
def calculateSeconds (fps : Rat) (frameNum : Int) : Rat :=
  frameNum / (if fps = 0 then 1 else fps)

/-- `Output.to_frame`: `Frame(self._calculate_frame(float(time)))`. -/
def toFrame (fps : Rat) (timeSeconds : Rat) : Except PyError Frame :=
  Frame.fromInt (calculateFrame fps timeSeconds)

/-- `Output.to_time` collapsed to the seconds it wraps:
`Time(seconds=self._calculate_seconds(int(frame)))`. -/
def toTime (fps : Rat) (f : Frame) : Rat :=
  calculateSeconds fps f.value

end Output

namespace AudioOutput

/-- `AudioOutput._calculate_frame`: `floor(seconds * self.fps)` —
`math.floor`, not `round`. -/
def calculateFrame (fps seconds : Rat) : Int :=
  ⌊seconds * fps⌋

/-- `AudioOutput._calculate_seconds`: `frame_num / self.fps` — no
`or 1` guard, so `fps == 0` raises `ZeroDivisionError`. -/
def calculateSeconds (fps : Rat) (frameNum : Int) : Except PyError Rat :=
  if fps = 0 then .error .zeroDivisionError else .ok (frameNum / fps)

/-- `AudioOutput.to_frame`: `Frame(self._calculate_frame(float(time)))`. -/
def toFrame (fps : Rat) (timeSeconds : Rat) : Except PyError Frame :=
  Frame.fromInt (calculateFrame fps timeSeconds)

end AudioOutput

/-- Warning logged when the persisted `name` fails its typed load. -/
def nameWarnMsg : String :=
  "Storage loading: Output: failed to parse name."

/-- Warning logged when the persisted `last_showed_frame` fails its
typed load. -/
def lsfParseWarnMsg : String :=
  "Storage loading: Output: failed to parse last showed frame."

/-- Warning logged (from the `except IndexError` branch of
`Output.__setstate__`) when the persisted `last_showed_frame` is out of
range. -/
def lsfRangeWarnMsg : String :=
  "Storage loading: Output: last showed frame is out of range."

/-- Warning logged when the persisted `scening_lists` fails its typed
load. -/
def sceningWarnMsg : String :=
  "Storage loading: Output: scening lists weren\x27t parsed successfully."

/-- Warning logged when the persisted `play_fps` is missing or not a
float. -/
def playFpsWarnMsg : String :=
  "Storage loading: Output: play fps weren\x27t parsed successfully."

/-- Modelled from the spec: `vspreview.utils.try_load` is not under
`src/` (only its call sites are).  Per the spec, the loader "attempts a
typed load; on type mismatch or out-of-range value it logs a warning
and keeps a computed default rather than failing the whole load".
`extract` is the `isinstance` test for the expected type; the result is
the loaded value (or the default) together with the warnings logged. -/
def try_load {A : Type} (state : PyDict) (key : String)
    (extract : PyVal → Option A) (dflt : A) (msg : String) :
    A × List String :=
  match state.lookup key with
  | some v =>
    match extract v with
    | some a => (a, [])
    | none => (dflt, [msg])
  | none => (dflt, [msg])

/-- The `name` load of `Output.__setstate__`: default `''`, expected
type `str`. -/
def loadName (state : PyDict) : String × List String :=
  try_load state "name"
    (fun v => match v with | .str s => some s | _ => none)
    "" nameWarnMsg

/-- The `last_showed_frame` load of `Output.__setstate__` combined with
the range check of `Output.__init__` (which resets a value above
`end_frame` to `Frame(0)`).  Modelled from the spec for the part played
by the missing `try_load`: an out-of-range value "logs a warning and
keeps a computed default" — realised in source by the `except
IndexError` branch that logs `lsfRangeWarnMsg` and leaves the default
`Frame(0)` in place. -/
def loadLastShowedFrame (state : PyDict) (endFrame : Frame) :
    Frame × List String :=
  match state.lookup "last_showed_frame" with
  | some (.frame f) =>
      if Frame.gtb f endFrame then (⟨0⟩, [lsfRangeWarnMsg]) else (f, [])
  | some _ => (⟨0⟩, [lsfParseWarnMsg])
  | none => (⟨0⟩, [lsfParseWarnMsg])

/-- The `scening_lists` load of `Output.__setstate__`: default a fresh
`SceningLists()` (modelled as `none`), expected type `SceningLists`. -/
def loadSceningLists (state : PyDict) : Option Nat × List String :=
  try_load state "scening_lists"
    (fun v => match v with | .sceningLists i => some (some i) | _ => none)
    none sceningWarnMsg

/-- The `play_fps` block of `Output.__setstate__`, verbatim from
source: a missing key (`KeyError`) or a non-float value (`TypeError`)
logs a warning; a float is stored only when `play_fps > 0`, and a
non-positive float is dropped with no warning at all.  Returns `none`
when `self.play_fps` is left unset. -/
def loadPlayFps (state : PyDict) : Option Rat × List String :=
  match state.lookup "play_fps" with
  | none => (none, [playFpsWarnMsg])
  | some (.float q) => if q > 0 then (some q, []) else (none, [])
  | some _ => (none, [playFpsWarnMsg])

/-- The persisted attributes of an `Output` after loading: the
structure `Output.__setstate__` plus the `hasattr`-guarded defaulting
of `Output.__init__` leave behind. -/
structure OutputLoadedState where
  name : String
  last_showed_frame : Frame
  scening_lists : Option Nat
  play_fps : Rat
  deriving Repr, DecidableEq

/-- `Output.__setstate__` followed by the persisted-field merge of
`Output.__init__`: each attribute is loaded with its typed loader, and
a `play_fps` left unset falls back to the source fps
(`self.play_fps = self.fps_num / self.fps_den` under
`if not hasattr(self, 'play_fps')`).  Total by construction: every
exception of the source is caught and turned into a warning. -/
def Output.setstate (state : PyDict) (endFrame : Frame)
    (sourceFps : Rat) : OutputLoadedState × List String :=
  let n := loadName state
  let l := loadLastShowedFrame state endFrame
  let s := loadSceningLists state
  let p := loadPlayFps state
  (⟨n.1, l.1, s.1, (p.1).getD sourceFps⟩, n.2 ++ l.2 ++ s.2 ++ p.2)

/-- C1: for every Frame `a` and FrameInterval `d` such that `a + d` is
constructible (`a.value + d.value >= 0`), `(a + d) - d` equals `a`; and
for all Frames `a`, `b`, `a - b` yields a FrameInterval whose value is
the negation of the value of `b - a`.  (`a` carries the Frame invariant
`0 ≤ a.value`, which every constructed Frame satisfies.) -/
theorem frame_add_sub_cancel_and_sub_antisym (a : Frame) (d : FrameInterval)
    (b : Frame) (ha : 0 ≤ a.value) (had : 0 ≤ a.value + d.value) :
    (Frame.add a d).bind (fun f => Frame.subFI f d) = .ok a ∧
    (Frame.subF a b).value = -((Frame.subF b a).value) := by
  constructor
  · have h1 : ¬ (a.value + d.value < 0) := by omega
    have h2 : ¬ (a.value + d.value - d.value < 0) := by omega
    simp [Frame.add, Frame.subFI, Frame.fromInt, h1, h2, Except.bind]
    omega
  · simp only [Frame.subF]
    omega

/-- Witness for C1 at `a = Frame(3)`, `d = FrameInterval(-2)`,
`b = Frame(5)`. -/
theorem frame_add_sub_cancel_and_sub_antisym_witness :
    (0 : Int) ≤ (⟨3⟩ : Frame).value ∧
    (0 : Int) ≤ (⟨3⟩ : Frame).value + (⟨-2⟩ : FrameInterval).value ∧
    ((Frame.add ⟨3⟩ ⟨-2⟩).bind (fun f => Frame.subFI f ⟨-2⟩) = .ok ⟨3⟩ ∧
      (Frame.subF ⟨3⟩ ⟨5⟩).value = -((Frame.subF ⟨5⟩ ⟨3⟩).value)) :=
  ⟨by decide, by decide,
   frame_add_sub_cancel_and_sub_antisym ⟨3⟩ ⟨-2⟩ ⟨5⟩ (by decide) (by decide)⟩

/-- C2: Frame construction succeeds exactly on its stated domain: a
non-negative `int` yields a Frame wrapping it, a negative `int` raises
`ValueError`, and any value that is not an `int`, `Frame` or `Time`
raises `TypeError`. -/
theorem frame_init_domain (tf : Rat → Except PyError Frame) :
    (∀ n : Int, 0 ≤ n → Frame.init tf (.int n) = .ok ⟨n⟩) ∧
    (∀ n : Int, n < 0 → Frame.init tf (.int n) = .error .valueError) ∧
    (∀ v : PyVal, (∀ n, v ≠ .int n) → (∀ f, v ≠ .frame f) →
      (∀ s, v ≠ .time s) → Frame.init tf v = .error (.typeError "")) := by
  refine ⟨?_, ?_, ?_⟩
  · intro n hn
    simp [Frame.init, Frame.fromInt, not_lt.mpr hn]
  · intro n hn
    simp [Frame.init, Frame.fromInt, hn]
  · intro v hint hframe htime
    cases v
    case int n => exact absurd rfl (hint n)
    case frame f => exact absurd rfl (hframe f)
    case time s => exact absurd rfl (htime s)
    all_goals rfl

/-- Witness for C2 at inputs `7`, `-1` and `'x'`. -/
theorem frame_init_domain_witness :
    Frame.init (fun _ => .error (.typeError "")) (.int 7) = .ok ⟨7⟩ ∧
    Frame.init (fun _ => .error (.typeError "")) (.int (-1)) =
      .error .valueError ∧
    Frame.init (fun _ => .error (.typeError "")) (.str "x") =
      .error (.typeError "") :=
  ⟨(frame_init_domain _).1 7 (by decide),
   (frame_init_domain _).2.1 (-1) (by decide),
   (frame_init_domain _).2.2 (.str "x") (fun n h => nomatch h)
     (fun f h => nomatch h) (fun s h => nomatch h)⟩

/-- C8: the comparison operators on Frame form a strict total order:
for every pair of Frames exactly one of `a < b`, `a == b`, `a > b`
holds, with `<` (and the rest) derived from `==` and `>` as in the
shared wrapper base class. -/
theorem frame_order_trichotomy (a b : Frame) :
    (Frame.ltb a b = true ∧ Frame.eqb a b = false ∧ Frame.gtb a b = false) ∨
    (Frame.ltb a b = false ∧ Frame.eqb a b = true ∧ Frame.gtb a b = false) ∨
    (Frame.ltb a b = false ∧ Frame.eqb a b = false ∧ Frame.gtb a b = true) := by
  rcases lt_trichotomy a.value b.value with h | h | h
  · have he : Frame.eqb a b = false := by
      simp [Frame.eqb]
      omega
    have hg : Frame.gtb a b = false := by
      simp [Frame.gtb]
      omega
    exact Or.inl ⟨by simp [Frame.ltb, Frame.geb, he, hg], he, hg⟩
  · have he : Frame.eqb a b = true := by
      simp [Frame.eqb]
      omega
    have hg : Frame.gtb a b = false := by
      simp [Frame.gtb]
      omega
    exact Or.inr (Or.inl ⟨by simp [Frame.ltb, Frame.geb, he, hg], he, hg⟩)
  · have he : Frame.eqb a b = false := by
      simp [Frame.eqb]
      omega
    have hg : Frame.gtb a b = true := by
      simp [Frame.gtb]
      omega
    exact Or.inr (Or.inr ⟨by simp [Frame.ltb, Frame.geb, he, hg], he, hg⟩)

/-- C9: for a Frame `a` and FrameInterval `d` with `d.value > a.value`,
the non-mutating `a - d` re-validates through the constructor and
raises `ValueError`, while the in-place `a -= d` skips validation and
leaves `a` wrapping the negative integer `a.value - d.value`. -/
theorem frame_sub_validation_asymmetry (a : Frame) (d : FrameInterval)
    (h : a.value < d.value) :
    Frame.subFI a d = .error .valueError ∧
    (Frame.isubFI a d).value = a.value - d.value ∧
    (Frame.isubFI a d).value < 0 := by
  refine ⟨?_, rfl, ?_⟩
  · simp [Frame.subFI, Frame.fromInt]
    omega
  · simp [Frame.isubFI]
    omega

/-- Witness for C9 at `a = Frame(1)`, `d = FrameInterval(2)`. -/
theorem frame_sub_validation_asymmetry_witness :
    (⟨1⟩ : Frame).value < (⟨2⟩ : FrameInterval).value ∧
    (Frame.subFI ⟨1⟩ ⟨2⟩ = .error .valueError ∧
      (Frame.isubFI ⟨1⟩ ⟨2⟩).value = (⟨1⟩ : Frame).value -
        (⟨2⟩ : FrameInterval).value ∧
      (Frame.isubFI ⟨1⟩ ⟨2⟩).value < 0) :=
  ⟨by decide, frame_sub_validation_asymmetry ⟨1⟩ ⟨2⟩ (by decide)⟩

/-- C10: `YAMLObjectWrapper.__eq__` compares only the wrapped values,
not the unit types: `Frame(n) == FrameInterval(n)` for every `n ≥ 0`,
and any two wrapper instances with equal wrapped values compare equal. -/
theorem wrapper_eq_ignores_unit_type :
    (∀ n : Int, 0 ≤ n →
      Wrapper.eqb (.frame ⟨n⟩) (.frameInterval ⟨n⟩) = true) ∧
    (∀ a b : Wrapper, a.value = b.value → Wrapper.eqb a b = true) := by
  constructor
  · intro n _
    simp [Wrapper.eqb, Wrapper.value, WrapperVal.eqb]
  · intro a b h
    rw [Wrapper.eqb, h]
    cases b.value <;> simp [WrapperVal.eqb]

/-- Witness for C10 at `n = 4` and at two `Time`-like wrappers with
equal values. -/
theorem wrapper_eq_ignores_unit_type_witness :
    ((0 : Int) ≤ 4 ∧
      Wrapper.eqb (.frame ⟨4⟩) (.frameInterval ⟨4⟩) = true) ∧
    ((Wrapper.time 2).value = (Wrapper.timeInterval 2).value ∧
      Wrapper.eqb (.time 2) (.timeInterval 2) = true) :=
  ⟨⟨by decide, wrapper_eq_ignores_unit_type.1 4 (by decide)⟩,
   ⟨rfl, wrapper_eq_ignores_unit_type.2 (.time 2) (.timeInterval 2) rfl⟩⟩

/-- C3: every Scene satisfies `start <= end` after construction; out of
order endpoints are swapped (`Scene(Frame(5), Frame(2), 'x')` becomes
`start=Frame(2), end=Frame(5)`); a single endpoint defaults the other
to it; neither endpoint raises `ValueError`. -/
theorem scene_init_start_le_end :
    (∀ (os oe : Option Frame) (l : String) (sc : Scene),
        Scene.init os oe l = .ok sc → sc.start.value ≤ sc.«end».value) ∧
    Scene.init (some ⟨5⟩) (some ⟨2⟩) "x" = .ok ⟨⟨2⟩, ⟨5⟩, "x"⟩ ∧
    (∀ (s : Frame) (l : String), Scene.init (some s) none l = .ok ⟨s, s, l⟩) ∧
    (∀ (e : Frame) (l : String), Scene.init none (some e) l = .ok ⟨e, e, l⟩) ∧
    (∀ l : String, Scene.init none none l = .error .valueError) := by
  refine ⟨?_, rfl, fun s l => rfl, fun e l => rfl, fun l => rfl⟩
  intro os oe l sc h
  match os, oe with
  | none, none => simp [Scene.init] at h
  | some s, none =>
    simp [Scene.init] at h
    subst h
    exact le_refl _
  | none, some e =>
    simp [Scene.init] at h
    subst h
    exact le_refl _
  | some s, some e =>
    simp [Scene.init] at h
    by_cases hg : Frame.gtb s e = true
    · rw [if_pos hg] at h
      subst h
      simp [Frame.gtb] at hg
      show e.value ≤ s.value
      omega
    · rw [if_neg hg] at h
      subst h
      simp [Frame.gtb] at hg
      show s.value ≤ e.value
      omega

/-- Witness for C3 at `Scene(Frame(5), Frame(2), 'x')`. -/
theorem scene_init_start_le_end_witness :
    Scene.init (some ⟨5⟩) (some ⟨2⟩) "x" = .ok ⟨⟨2⟩, ⟨5⟩, "x"⟩ ∧
    (⟨⟨2⟩, ⟨5⟩, "x"⟩ : Scene).start.value ≤
      (⟨⟨2⟩, ⟨5⟩, "x"⟩ : Scene).«end».value :=
  ⟨rfl, scene_init_start_le_end.1 (some ⟨5⟩) (some ⟨2⟩) "x" _ rfl⟩

/-- C4: the seconds→frame conversion of an audio output uses floor
while that of a video output uses round: with fps 16 (sample rate
48000, 3000 samples per frame), `to_frame(Time(seconds=0.99/16))`
yields `Frame(0)` for the audio output (no overshoot past unread
samples), whereas the video rounding of the same input would give
`Frame(1)`. -/
theorem audio_to_frame_floors_no_overshoot :
    AudioOutput.toFrame 16 (99/100/16) = .ok ⟨0⟩ ∧
    (⟨0⟩ : Frame).value ≤ (0 : Int) ∧
    Output.toFrame 16 (99/100/16) = .ok ⟨1⟩ := by
  refine ⟨?_, le_refl _, ?_⟩
  · norm_num [AudioOutput.toFrame, AudioOutput.calculateFrame, Frame.fromInt]
  · norm_num [Output.toFrame, Output.calculateFrame, pyRound, Frame.fromInt]

/-- Counterexample to C5: the claim says fps is treated as 1 in the
seconds→frame direction and that division by zero never raises in
either context.  In the code, `Output._calculate_frame` multiplies
(`round(seconds * self.fps)`): with fps 0 it returns 0, not the value 5
that treating fps as 1 would give; and `AudioOutput._calculate_seconds`
divides by `self.fps` with no guard, raising `ZeroDivisionError` at
fps 0.  (The `or 1` guard sits in `Output._calculate_seconds`, the
frame→seconds direction.) -/
theorem fps_zero_guard_counterexample :
    Output.calculateFrame 0 5 = 0 ∧
    Output.calculateFrame 1 5 = 5 ∧
    AudioOutput.calculateSeconds 0 1 = .error .zeroDivisionError := by
  refine ⟨?_, ?_, ?_⟩
  · norm_num [Output.calculateFrame, pyRound]
  · norm_num [Output.calculateFrame, pyRound]
  · rfl

/-- C5 amended: when fps evaluates to zero, only the video context's
frame→seconds direction substitutes 1 for fps
(`frame_num / (self.fps or 1)`); the seconds→frame direction of both
contexts performs no division (it multiplies by fps, yielding 0 when
fps is 0, without treating fps as 1); the audio frame→seconds
direction is unguarded and raises `ZeroDivisionError` at fps 0. -/
theorem fps_zero_guard_amended (fps : Rat) (n : Int) (s : Rat)
    (hf : fps ≠ 0) :
    Output.calculateSeconds 0 n = (n : Rat) ∧
    Output.calculateSeconds fps n = (n : Rat) / fps ∧
    Output.calculateFrame 0 s = 0 ∧
    AudioOutput.calculateFrame 0 s = 0 ∧
    AudioOutput.calculateSeconds 0 n = .error .zeroDivisionError ∧
    AudioOutput.calculateSeconds fps n = .ok ((n : Rat) / fps) := by
  refine ⟨?_, ?_, ?_, ?_, rfl, ?_⟩
  · simp [Output.calculateSeconds]
  · simp [Output.calculateSeconds, hf]
  · norm_num [Output.calculateFrame, pyRound]
  · norm_num [AudioOutput.calculateFrame]
  · simp [AudioOutput.calculateSeconds, hf]

/-- Witness for the amended C5 at `fps = 2`, `n = 3`, `s = 7`. -/
theorem fps_zero_guard_amended_witness :
    (2 : Rat) ≠ 0 ∧
    (Output.calculateSeconds 0 3 = ((3 : Int) : Rat) ∧
      Output.calculateSeconds 2 3 = ((3 : Int) : Rat) / 2 ∧
      Output.calculateFrame 0 7 = 0 ∧
      AudioOutput.calculateFrame 0 7 = 0 ∧
      AudioOutput.calculateSeconds 0 3 = .error .zeroDivisionError ∧
      AudioOutput.calculateSeconds 2 3 = .ok (((3 : Int) : Rat) / 2)) :=
  ⟨by norm_num, fps_zero_guard_amended 2 3 7 (by norm_num)⟩

/-- Every warning `loadName` can emit is `nameWarnMsg`. -/
theorem mem_loadName_warnings (st : PyDict) (m : String)
    (h : m ∈ (loadName st).2) : m = nameWarnMsg := by
  unfold loadName try_load at h
  rcases hv : st.lookup "name" with _ | v
  · rw [hv] at h
    simp_all
  · rw [hv] at h
    cases v <;> simp_all

/-- Every warning `loadLastShowedFrame` can emit is `lsfParseWarnMsg`
or `lsfRangeWarnMsg`. -/
theorem mem_loadLastShowedFrame_warnings (st : PyDict) (ef : Frame)
    (m : String) (h : m ∈ (loadLastShowedFrame st ef).2) :
    m = lsfParseWarnMsg ∨ m = lsfRangeWarnMsg := by
  unfold loadLastShowedFrame at h
  rcases hv : st.lookup "last_showed_frame" with _ | v
  · rw [hv] at h
    simp_all
  · rw [hv] at h
    cases v <;> simp_all
    rename_i f
    by_cases hg : Frame.gtb f ef = true <;> simp_all

/-- Every warning `loadSceningLists` can emit is `sceningWarnMsg`. -/
theorem mem_loadSceningLists_warnings (st : PyDict) (m : String)
    (h : m ∈ (loadSceningLists st).2) : m = sceningWarnMsg := by
  unfold loadSceningLists try_load at h
  rcases hv : st.lookup "scening_lists" with _ | v
  · rw [hv] at h
    simp_all
  · rw [hv] at h
    cases v <;> simp_all

/-- A mistyped persisted `name` loads as the default with a warning. -/
theorem loadName_mistyped (st : PyDict) (v : PyVal)
    (hv : st.lookup "name" = some v) (hns : ∀ s, v ≠ .str s) :
    loadName st = ("", [nameWarnMsg]) := by
  unfold loadName try_load
  rw [hv]
  cases v
  case str s => exact absurd rfl (hns s)
  all_goals rfl

/-- An out-of-range persisted `last_showed_frame` loads as `Frame(0)`
with the out-of-range warning. -/
theorem loadLastShowedFrame_out_of_range (st : PyDict) (ef f : Frame)
    (hv : st.lookup "last_showed_frame" = some (.frame f))
    (hg : Frame.gtb f ef = true) :
    loadLastShowedFrame st ef = (⟨0⟩, [lsfRangeWarnMsg]) := by
  unfold loadLastShowedFrame
  rw [hv]
  simp [hg]

/-- A mistyped persisted `last_showed_frame` loads as the default
`Frame(0)` with the parse warning. -/
theorem loadLastShowedFrame_mistyped (st : PyDict) (ef : Frame)
    (v : PyVal) (hv : st.lookup "last_showed_frame" = some v)
    (hnf : ∀ f, v ≠ .frame f) :
    loadLastShowedFrame st ef = (⟨0⟩, [lsfParseWarnMsg]) := by
  unfold loadLastShowedFrame
  rw [hv]
  cases v
  case frame f => exact absurd rfl (hnf f)
  all_goals rfl

/-- A mistyped persisted `scening_lists` loads as the default with a
warning. -/
theorem loadSceningLists_mistyped (st : PyDict) (v : PyVal)
    (hv : st.lookup "scening_lists" = some v)
    (hns : ∀ i, v ≠ .sceningLists i) :
    loadSceningLists st = (none, [sceningWarnMsg]) := by
  unfold loadSceningLists try_load
  rw [hv]
  cases v
  case sceningLists i => exact absurd rfl (hns i)
  all_goals rfl

/-- A missing persisted `play_fps` is dropped with a warning. -/
theorem loadPlayFps_missing (st : PyDict)
    (hv : st.lookup "play_fps" = none) :
    loadPlayFps st = (none, [playFpsWarnMsg]) := by
  unfold loadPlayFps
  rw [hv]

/-- A non-float persisted `play_fps` is dropped with a warning. -/
theorem loadPlayFps_mistyped (st : PyDict) (v : PyVal)
    (hv : st.lookup "play_fps" = some v) (hnf : ∀ q, v ≠ .float q) :
    loadPlayFps st = (none, [playFpsWarnMsg]) := by
  unfold loadPlayFps
  rw [hv]
  cases v
  case float q => exact absurd rfl (hnf q)
  all_goals rfl

/-- A non-positive float persisted `play_fps` is dropped silently:
`if play_fps > 0` simply skips the assignment, logging nothing. -/
theorem loadPlayFps_nonpositive (st : PyDict) (q : Rat)
    (hv : st.lookup "play_fps" = some (.float q)) (hq : q ≤ 0) :
    loadPlayFps st = (none, []) := by
  unfold loadPlayFps
  rw [hv]
  simp [not_lt.mpr hq]

/-- Counterexample to C6: a persisted record whose `play_fps` is the
float `-1.0` — not a positive float — loads with `play_fps` falling
back to the source fps but with NO warning logged (the source's
`if play_fps > 0` silently skips the assignment and no `except` branch
fires), contradicting the claim that every out-of-range persisted
value is replaced by a default "with a warning logged". -/
theorem output_setstate_counterexample :
    Output.setstate
      [("name", .str "out"), ("last_showed_frame", .frame ⟨0⟩),
        ("scening_lists", .sceningLists 0), ("play_fps", .float (-1))]
      ⟨10⟩ 24 =
      (⟨"out", ⟨0⟩, some 0, 24⟩, []) := by
  decide

/-- C6 amended: on loading a persisted video-output record, every
persisted attribute of the wrong type among `name`,
`last_showed_frame` and `scening_lists` is replaced by its computed
default with a warning logged; a `last_showed_frame` greater than
`end_frame` is reset to `Frame(0)` with a warning; a `play_fps` that
is missing or not a float falls back to the source fps with a warning,
while a `play_fps` that is a float but not positive falls back to the
source fps silently, with no warning; the load is total (never
raises).  (The `try_load` helper lives outside `src/` and is modelled
from the spec.) -/
theorem output_setstate_amended :
    (∀ (st : PyDict) (ef : Frame) (fps : Rat) (v : PyVal),
      st.lookup "name" = some v → (∀ s, v ≠ .str s) →
      (Output.setstate st ef fps).1.name = "" ∧
        nameWarnMsg ∈ (Output.setstate st ef fps).2) ∧
    (∀ (st : PyDict) (ef : Frame) (fps : Rat) (f : Frame),
      st.lookup "last_showed_frame" = some (.frame f) →
      Frame.gtb f ef = true →
      (Output.setstate st ef fps).1.last_showed_frame = ⟨0⟩ ∧
        lsfRangeWarnMsg ∈ (Output.setstate st ef fps).2) ∧
    (∀ (st : PyDict) (ef : Frame) (fps : Rat) (v : PyVal),
      st.lookup "last_showed_frame" = some v → (∀ f, v ≠ .frame f) →
      (Output.setstate st ef fps).1.last_showed_frame = ⟨0⟩ ∧
        lsfParseWarnMsg ∈ (Output.setstate st ef fps).2) ∧
    (∀ (st : PyDict) (ef : Frame) (fps : Rat) (v : PyVal),
      st.lookup "scening_lists" = some v → (∀ i, v ≠ .sceningLists i) →
      (Output.setstate st ef fps).1.scening_lists = none ∧
        sceningWarnMsg ∈ (Output.setstate st ef fps).2) ∧
    (∀ (st : PyDict) (ef : Frame) (fps : Rat),
      st.lookup "play_fps" = none →
      (Output.setstate st ef fps).1.play_fps = fps ∧
        playFpsWarnMsg ∈ (Output.setstate st ef fps).2) ∧
    (∀ (st : PyDict) (ef : Frame) (fps : Rat) (v : PyVal),
      st.lookup "play_fps" = some v → (∀ q, v ≠ .float q) →
      (Output.setstate st ef fps).1.play_fps = fps ∧
        playFpsWarnMsg ∈ (Output.setstate st ef fps).2) ∧
    (∀ (st : PyDict) (ef : Frame) (fps : Rat) (q : Rat),
      st.lookup "play_fps" = some (.float q) → q ≤ 0 →
      (Output.setstate st ef fps).1.play_fps = fps ∧
        playFpsWarnMsg ∉ (Output.setstate st ef fps).2) := by
  refine ⟨?_, ?_, ?_, ?_, ?_, ?_, ?_⟩
  · intro st ef fps v hv hns
    have h1 := loadName_mistyped st v hv hns
    constructor
    · simp [Output.setstate, h1]
    · simp [Output.setstate, h1, List.mem_append]
  · intro st ef fps f hv hg
    have h1 := loadLastShowedFrame_out_of_range st ef f hv hg
    constructor
    · simp [Output.setstate, h1]
    · simp [Output.setstate, h1, List.mem_append]
  · intro st ef fps v hv hnf
    have h1 := loadLastShowedFrame_mistyped st ef v hv hnf
    constructor
    · simp [Output.setstate, h1]
    · simp [Output.setstate, h1, List.mem_append]
  · intro st ef fps v hv hns
    have h1 := loadSceningLists_mistyped st v hv hns
    constructor
    · simp [Output.setstate, h1]
    · simp [Output.setstate, h1, List.mem_append]
  · intro st ef fps hv
    have h1 := loadPlayFps_missing st hv
    constructor
    · simp [Output.setstate, h1]
    · simp [Output.setstate, h1, List.mem_append]
  · intro st ef fps v hv hnf
    have h1 := loadPlayFps_mistyped st v hv hnf
    constructor
    · simp [Output.setstate, h1]
    · simp [Output.setstate, h1, List.mem_append]
  · intro st ef fps q hv hq
    have h1 := loadPlayFps_nonpositive st q hv hq
    refine ⟨by simp [Output.setstate, h1], ?_⟩
    intro hmem
    simp [Output.setstate, h1, List.mem_append] at hmem
    rcases hmem with h | h | h
    · exact absurd (mem_loadName_warnings st _ h) (by decide)
    · rcases mem_loadLastShowedFrame_warnings st ef _ h with h2 | h2 <;>
        exact absurd h2 (by decide)
    · exact absurd (mem_loadSceningLists_warnings st _ h) (by decide)

/-- Witness for the amended C6: a mistyped `name`, an out-of-range
`last_showed_frame`, a mistyped `last_showed_frame`, and a missing
`play_fps`, each at a concrete one-field record with
`end_frame = Frame(10)` and source fps 24. -/
theorem output_setstate_amended_witness :
    ((Output.setstate [("name", .int 3)] ⟨10⟩ 24).1.name = "" ∧
      nameWarnMsg ∈ (Output.setstate [("name", .int 3)] ⟨10⟩ 24).2) ∧
    ((Output.setstate [("last_showed_frame", .frame ⟨99⟩)] ⟨10⟩
        24).1.last_showed_frame = ⟨0⟩ ∧
      lsfRangeWarnMsg ∈
        (Output.setstate [("last_showed_frame", .frame ⟨99⟩)] ⟨10⟩ 24).2) ∧
    ((Output.setstate [("last_showed_frame", .str "bad")] ⟨10⟩
        24).1.last_showed_frame = ⟨0⟩ ∧
      lsfParseWarnMsg ∈
        (Output.setstate [("last_showed_frame", .str "bad")] ⟨10⟩ 24).2) ∧
    ((Output.setstate [] ⟨10⟩ 24).1.play_fps = 24 ∧
      playFpsWarnMsg ∈ (Output.setstate [] ⟨10⟩ 24).2) :=
  ⟨output_setstate_amended.1 [("name", .int 3)] ⟨10⟩ 24 (.int 3) rfl
      (fun s h => nomatch h),
   output_setstate_amended.2.1 [("last_showed_frame", .frame ⟨99⟩)] ⟨10⟩ 24
      ⟨99⟩ rfl (by decide),
   output_setstate_amended.2.2.1 [("last_showed_frame", .str "bad")] ⟨10⟩ 24
      (.str "bad") rfl (fun f h => nomatch h),
   output_setstate_amended.2.2.2.2.1 [] ⟨10⟩ 24 rfl⟩

/-- C7: deserializing a Scene record validates structurally, in the
source's check order: a present `start`/`end` that is not a Frame, or a
present `label` that is not a string, raises a descriptive
type-corruption error; an absent required field raises a corruption
error naming the expected fields (`start, end, label` — in particular
naming `end`); and when all three fields are present and well-typed the
record is rebuilt through `Scene.__init__` with exactly those values,
nothing defaulted or coerced. -/
theorem scene_setstate_validates :
    (∀ (st : PyDict) (v : PyVal), st.lookup "start" = some v →
      (∀ f, v ≠ .frame f) →
      Scene.setstate st = .error (.typeError startNotFrameMsg)) ∧
    (∀ (st : PyDict) (s : Frame) (v : PyVal),
      st.lookup "start" = some (.frame s) → st.lookup "end" = some v →
      (∀ f, v ≠ .frame f) →
      Scene.setstate st = .error (.typeError endNotFrameMsg)) ∧
    (∀ (st : PyDict) (s e : Frame) (v : PyVal),
      st.lookup "start" = some (.frame s) →
      st.lookup "end" = some (.frame e) → st.lookup "label" = some v →
      (∀ l, v ≠ .str l) →
      Scene.setstate st = .error (.typeError labelNotStrMsg)) ∧
    (∀ st : PyDict, st.lookup "start" = none →
      Scene.setstate st = .error (.keyError sceneFieldsMsg)) ∧
    (∀ (st : PyDict) (s : Frame), st.lookup "start" = some (.frame s) →
      st.lookup "end" = none →
      Scene.setstate st = .error (.keyError sceneFieldsMsg)) ∧
    (∀ (st : PyDict) (s e : Frame),
      st.lookup "start" = some (.frame s) →
      st.lookup "end" = some (.frame e) → st.lookup "label" = none →
      Scene.setstate st = .error (.keyError sceneFieldsMsg)) ∧
    mentionsField sceneFieldsMsg "end" ∧
    (∀ (st : PyDict) (s e : Frame) (l : String),
      st.lookup "start" = some (.frame s) →
      st.lookup "end" = some (.frame e) →
      st.lookup "label" = some (.str l) →
      Scene.setstate st = Scene.init (some s) (some e) l) := by
  refine ⟨?_, ?_, ?_, ?_, ?_, ?_, ?_, ?_⟩
  · intro st v hv hnf
    simp only [Scene.setstate, hv]
  · intro st s v hs hv hnf
    simp only [Scene.setstate, hs, hv]
  · intro st s e v hs he hv hns
    simp only [Scene.setstate, hs, he, hv]
  · intro st hv
    simp only [Scene.setstate, hv]
  · intro st s hs hv
    simp only [Scene.setstate, hs, hv]
  · intro st s e hs he hv
    simp only [Scene.setstate, hs, he, hv]
  · exact ⟨"Scene lacks one or more of its fields. It\x27s most probably corrupted. Check those: start, ",
      ", label.", by decide⟩
  · intro st s e l hs he hl
    simp only [Scene.setstate, hs, he, hl]

/-- Witness for C7: a mistyped `start`, a record missing `end`, and a
well-typed record, each concrete. -/
theorem scene_setstate_validates_witness :
    Scene.setstate [("start", .int 3)] =
      .error (.typeError startNotFrameMsg) ∧
    Scene.setstate [("start", .frame ⟨1⟩)] =
      .error (.keyError sceneFieldsMsg) ∧
    Scene.setstate
        [("start", .frame ⟨1⟩), ("end", .frame ⟨2⟩), ("label", .str "x")] =
      Scene.init (some ⟨1⟩) (some ⟨2⟩) "x" ∧
    mentionsField sceneFieldsMsg "end" :=
  ⟨scene_setstate_validates.1 [("start", .int 3)] (.int 3) rfl
      (fun _ h => nomatch h),
   scene_setstate_validates.2.2.2.2.1 [("start", .frame ⟨1⟩)] ⟨1⟩ rfl rfl,
   scene_setstate_validates.2.2.2.2.2.2.2
      [("start", .frame ⟨1⟩), ("end", .frame ⟨2⟩), ("label", .str "x")]
      ⟨1⟩ ⟨2⟩ "x" rfl rfl rfl,
   scene_setstate_validates.2.2.2.2.2.2.1⟩
